import Mathlib

/-!
Verification of the beThere live-location coordination engine.

Shallow embedding of the TypeScript sources:
  - `client/src/lib/haversine.ts` (status bucketing),
  - `client/src/pages/event/[id].tsx` (leave-by computation, ETA refresh scheduler),
  - `server/routes.ts` (WebSocket location-update pipeline, broadcast),
  - the in-memory storage (`MemStorage`: joinEvent, updateParticipantLocation),
  - the shared zod message schema (`wsMessageSchema`).

Numbers are modelled as rationals (JS numbers; none of the verified
properties depend on floating-point rounding).  Epoch timestamps are
rationals holding milliseconds.  JS truthiness on a nullable number
(`x` falsy iff `x` is `null`/`undefined` or `0`) is modelled explicitly.
The haversine distance itself is transcendental, so the pipeline is
parametrised by the distance function `calcDist`; every verified
property holds for an arbitrary distance function, and concrete
instantiations only use the one haversine fact the spec guarantees,
`distanceKm(a,a) = 0`.
-/

namespace BeThere

/-- JS truthiness of a nullable number: `null`/`undefined` and `0` are falsy. -/
def truthyQ : Option ℚ → Bool
  | some q => q != 0
  | none => false

/-- JS `Math.round`: round half away from zero is `⌊q + 1/2⌋` for the
nonnegative values that occur here; JS rounds halves toward +∞, which is
`⌊q + 1/2⌋` for every rational. -/
def jsRound (q : ℚ) : ℚ := ((⌊q + 1/2⌋ : ℤ) : ℚ)

/-! ## Distance/ETA utility (`client/src/lib/haversine.ts`) -/

/-- The four derived status buckets of `getParticipantStatus`. -/
inductive Status
  | arrived
  | close
  | moving
  | far
deriving DecidableEq, Repr

/-- Function `getParticipantStatus` from `haversine.ts` lines 75-80:
`<0.1 → arrived`, `<1 → close`, `<10 → moving`, else `far`. -/
def getParticipantStatus (distanceKm : ℚ) : Status :=
  if distanceKm < 1/10 then .arrived
  else if distanceKm < 1 then .close
  else if distanceKm < 10 then .moving
  else .far

/-! ## Leave-by computation (`client/src/pages/event/[id].tsx` lines 67-88) -/

structure LeaveByResult where
  leaveByTime : ℚ
  shouldLeaveNow : Bool
deriving DecidableEq, Repr

/-- Function `calculateLeaveByTime`: `targetArrival = eventTime - 5min`,
`leaveBy = targetArrival - etaMinutes`, `shouldLeaveNow = now ≥ leaveBy`.
Times are epoch milliseconds; `now` (read via `new Date()` in the source)
is an explicit parameter. -/
def calculateLeaveByTime (eventTimeMs etaMinutes nowMs : ℚ) : LeaveByResult :=
  let targetArrivalTime := eventTimeMs - 5 * 60 * 1000
  let leaveByTime := targetArrivalTime - etaMinutes * 60 * 1000
  { leaveByTime := leaveByTime
    shouldLeaveNow := decide (leaveByTime ≤ nowMs) }

/-- C3: `getParticipantStatus` is a total, non-overlapping partition of
non-negative distances with boundaries at 0.1, 1 and 10 km: `d < 0.1`
iff arrived, `0.1 ≤ d < 1` iff close, `1 ≤ d < 10` iff moving, `10 ≤ d`
iff far; in particular `0.0999 → arrived` and `0.1 → close`. -/
theorem c3_status_partition (d : ℚ) (hd : 0 ≤ d) :
    (getParticipantStatus d = .arrived ↔ d < 1/10) ∧
    (getParticipantStatus d = .close ↔ 1/10 ≤ d ∧ d < 1) ∧
    (getParticipantStatus d = .moving ↔ 1 ≤ d ∧ d < 10) ∧
    (getParticipantStatus d = .far ↔ 10 ≤ d) ∧
    getParticipantStatus (999/10000) = .arrived ∧
    getParticipantStatus (1/10) = .close := by
  unfold getParticipantStatus
  refine ⟨?_, ?_, ?_, ?_, by norm_num, by norm_num⟩ <;>
    split_ifs with h1 h2 h3 <;>
    simp_all <;>
    first
      | linarith
      | (constructor <;> linarith)
      | (rintro ⟨a, b⟩ <;> linarith)
      | (intro a <;> linarith)

theorem c3_status_partition_witness :
    (0 : ℚ) ≤ 1/2 ∧
    ((getParticipantStatus (1/2) = .arrived ↔ (1/2 : ℚ) < 1/10) ∧
     (getParticipantStatus (1/2) = .close ↔ (1/10 : ℚ) ≤ 1/2 ∧ (1/2 : ℚ) < 1) ∧
     (getParticipantStatus (1/2) = .moving ↔ (1 : ℚ) ≤ 1/2 ∧ (1/2 : ℚ) < 10) ∧
     (getParticipantStatus (1/2) = .far ↔ (10 : ℚ) ≤ 1/2) ∧
     getParticipantStatus (999/10000) = .arrived ∧
     getParticipantStatus (1/10) = .close) :=
  ⟨by norm_num, c3_status_partition (1/2) (by norm_num)⟩

/-- C4: the leave-by computation is a pure function of
(eventDatetime, etaMinutes, now): `leaveBy = eventDatetime - 5min - etaMinutes`
and `shouldLeaveNow = (now ≥ leaveBy)`; for the event at
2025-01-01T18:00:00 (epoch ms 1735754400000) with ETA 20 minutes the
leave-by time is 17:35 (1735752900000), `shouldLeaveNow` is true at
now = 17:40 and false at now = 17:00. -/
theorem c4_leave_by :
    (∀ e eta now : ℚ,
      (calculateLeaveByTime e eta now).leaveByTime = e - 5 * 60 * 1000 - eta * 60 * 1000 ∧
      ((calculateLeaveByTime e eta now).shouldLeaveNow = true ↔
        e - 5 * 60 * 1000 - eta * 60 * 1000 ≤ now)) ∧
    (calculateLeaveByTime 1735754400000 20 1735753200000).leaveByTime = 1735752900000 ∧
    (calculateLeaveByTime 1735754400000 20 1735753200000).shouldLeaveNow = true ∧
    (calculateLeaveByTime 1735754400000 20 1735750800000).shouldLeaveNow = false := by
  refine ⟨fun e eta now => ⟨rfl, ?_⟩, by norm_num [calculateLeaveByTime], ?_, ?_⟩
  · simp [calculateLeaveByTime]
  · simp [calculateLeaveByTime]
    norm_num
  · simp [calculateLeaveByTime]
    norm_num

/-! ## Data model and in-memory storage (`MemStorage`) -/

/-- A Participant row (`eventParticipants` table / `EventParticipant`).
Nullable numeric columns are `Option ℚ`; timestamps are epoch-ms rationals. -/
structure EventParticipant where
  id : String
  eventId : String
  userId : String
  lastLat : Option ℚ
  lastLng : Option ℚ
  lastLocationAt : Option ℚ
  isMoving : Bool
  estimatedArrival : Option ℚ
  distanceToEvent : Option ℚ
  joinedAt : ℚ
deriving DecidableEq, Repr

/-- An Event row; only the fields the pipeline reads. -/
structure Event where
  id : String
  creatorId : String
  locationLat : Option ℚ
  locationLng : Option ℚ
deriving DecidableEq, Repr

/-- The `MemStorage` maps, as insertion-ordered association lists (JS `Map`
iterates in insertion order).  `users` holds the existing user ids. -/
structure Storage where
  users : List String
  events : List Event
  eventParticipants : List (String × EventParticipant)
deriving DecidableEq, Repr

/-- JS `Map.set(k, v)`: overwrite in place if the key exists (keeping
insertion order), otherwise append. -/
def mapSet (m : List (String × EventParticipant)) (k : String) (v : EventParticipant) :
    List (String × EventParticipant) :=
  if m.any (fun kv => kv.1 == k) then
    m.map (fun kv => if kv.1 == k then (k, v) else kv)
  else m ++ [(k, v)]

/-- The predicate both `joinEvent` and `updateParticipantLocation` use to
find the row of `(eventId, userId)`. -/
def rowMatches (eventId userId : String) (kv : String × EventParticipant) : Bool :=
  kv.2.eventId == eventId && kv.2.userId == userId

/-- The row a participant gets on `joinEvent` (all location fields null). -/
def freshParticipant (freshId : String) (now : ℚ) (eventId userId : String) : EventParticipant :=
  { id := freshId, eventId := eventId, userId := userId
    lastLat := none, lastLng := none, lastLocationAt := none
    isMoving := false, estimatedArrival := none, distanceToEvent := none
    joinedAt := now }

/-- Method `MemStorage.joinEvent`: return the existing row for `(eventId, userId)`
if any, else insert a fresh row under a fresh uuid (`randomUUID`, the
`freshId` parameter; `now` is the `new Date()` join timestamp). -/
def joinEvent (freshId : String) (now : ℚ) (st : Storage) (eventId userId : String) :
    EventParticipant × Storage :=
  match st.eventParticipants.find? (rowMatches eventId userId) with
  | some kv => (kv.2, st)
  | none =>
      let participant := freshParticipant freshId now eventId userId
      (participant,
       { st with eventParticipants := mapSet st.eventParticipants freshId participant })

/-- The row update `MemStorage.updateParticipantLocation` performs on the
found row: spread the old row, overwrite `lastLat`, `lastLng`,
`lastLocationAt`, `isMoving`; `distanceToEvent := distance || prior` and
`estimatedArrival := eta ? now + eta min : prior` use JS truthiness, so a
missing or zero argument keeps the prior value. -/
def applyLocationUpdate (now : ℚ) (p : EventParticipant) (lat lng : ℚ)
    (isMoving : Bool) (eta distance : Option ℚ) : EventParticipant :=
  { p with
    lastLat := some lat
    lastLng := some lng
    lastLocationAt := some now
    isMoving := isMoving
    distanceToEvent := if truthyQ distance then distance else p.distanceToEvent
    estimatedArrival :=
      if truthyQ eta then some (now + (eta.getD 0) * 60 * 1000) else p.estimatedArrival }

/-- Method `MemStorage.updateParticipantLocation`.  When no row exists for
`(eventId, userId)` the source auto-joins and calls itself again; since
`joinEvent` inserts a matching row, that recursion runs exactly once and
is unrolled here (the inner `none` branch is unreachable from the source
and stands for the recursive call's lookup). -/
def updateParticipantLocation (freshId : String) (now : ℚ) (st : Storage)
    (eventId userId : String) (lat lng : ℚ) (isMoving : Bool)
    (eta distance : Option ℚ) : Option EventParticipant × Storage :=
  match st.eventParticipants.find? (rowMatches eventId userId) with
  | some (key, participant) =>
      let updated := applyLocationUpdate now participant lat lng isMoving eta distance
      (some updated, { st with eventParticipants := mapSet st.eventParticipants key updated })
  | none =>
      let st1 := (joinEvent freshId now st eventId userId).2
      match st1.eventParticipants.find? (rowMatches eventId userId) with
      | some (key, participant) =>
          let updated := applyLocationUpdate now participant lat lng isMoving eta distance
          (some updated, { st1 with eventParticipants := mapSet st1.eventParticipants key updated })
      | none => (none, st1)

/-- Look up the (first) row stored for `(eventId, userId)`. -/
def lookupParticipant (st : Storage) (eventId userId : String) : Option EventParticipant :=
  (st.eventParticipants.find? (rowMatches eventId userId)).map (fun kv => kv.2)

/-! ## Directions gateway (`server/routes.ts` lines 24-46) -/

/-- The outcome of the `fetch` to the directions provider, as
`calculateGoogleETA` inspects it: either the request threw (network
error / timeout), or a payload with a `status` string and optionally the
first route's first leg (carrying `duration.value` seconds). -/
inductive DirectionsResponse
  | networkError
  | payload (status : String) (legDurationSeconds : Option ℚ)
deriving DecidableEq, Repr

/-- Function `calculateGoogleETA`: returns `Math.round(durationSeconds / 60)`
minutes, and `0` on any failure (caught exception, non-OK status, or
missing route/leg). -/
def calculateGoogleETA (resp : DirectionsResponse) : ℚ :=
  match resp with
  | .networkError => 0
  | .payload status leg =>
      if status ≠ "OK" then 0
      else
        match leg with
        | none => 0
        | some durationSeconds => jsRound (durationSeconds / 60)

/-- A gateway failure: network error, provider non-OK status, or missing
route/leg in an OK response. -/
def gatewayFailed (resp : DirectionsResponse) : Prop :=
  resp = .networkError ∨
  (∃ s leg, resp = .payload s leg ∧ s ≠ "OK") ∨
  (∃ s, resp = .payload s none)

/-! ## Location update pipeline (`server/routes.ts` lines 248-308) -/

/-- Movement detection, `routes.ts` lines 272-286: guarded by JS
truthiness of `currentParticipant?.lastLat` and `?.lastLng` (so an
absent participant, a null position, or a coordinate equal to `0` all
skip the computation and leave `isMoving = false`); inside the guard,
moving iff the distance from the prior position exceeds 0.1 km and the
elapsed time since `lastLocationAt` (0 when that field is null) is below
30 seconds.  `calcDist` is the haversine `calculateDistance`. -/
def computeIsMoving (calcDist : ℚ → ℚ → ℚ → ℚ → ℚ) (now : ℚ) (lat lng : ℚ)
    (currentParticipant : Option EventParticipant) : Bool :=
  match currentParticipant with
  | none => false
  | some cp =>
      match cp.lastLat, cp.lastLng with
      | some priorLat, some priorLng =>
          if priorLat ≠ 0 ∧ priorLng ≠ 0 then
            let movementDistance := calcDist lat lng priorLat priorLng
            let timeDiff : ℚ :=
              match cp.lastLocationAt with
              | some t => (now - t) / 1000
              | none => 0
            decide (movementDistance > 1/10 ∧ timeDiff < 30)
          else false
      | _, _ => false

/-- Method `MemStorage.getEventWithParticipants`, restricted to what the
pipeline reads: `undefined` when the event or its creator is missing;
otherwise the event together with `userParticipant`, the first stored
row of this event whose user exists and whose `userId` matches. -/
def getEventWithParticipants (st : Storage) (eventId userId : String) :
    Option (Event × Option EventParticipant) :=
  match st.events.find? (fun e => e.id == eventId) with
  | none => none
  | some ev =>
      if st.users.contains ev.creatorId then
        let participants :=
          (st.eventParticipants.map (fun kv => kv.2)).filter
            (fun p => p.eventId == eventId && st.users.contains p.userId)
        some (ev, participants.find? (fun p => p.userId == userId))
      else none

/-- One live WebSocket as the broadcast loop sees it. -/
structure Conn where
  userId : String
  isOpen : Bool
deriving DecidableEq, Repr

/-- The `eventId → set of sockets` map (`eventConnections`). -/
abbrev EventConnections := List (String × List Conn)

/-- Function `broadcastToEvent` (`routes.ts` lines 223-235): the recipients are
the sockets in `eventConnections[eventId]` whose `readyState` is OPEN
and whose `userId` differs from `excludeUserId`; nobody when the event
has no socket set. -/
def broadcastToEvent (eventConnections : EventConnections) (eventId : String)
    (excludeUserId : Option String) : List Conn :=
  match eventConnections.find? (fun kv => kv.1 == eventId) with
  | none => []
  | some kv =>
      kv.2.filter (fun c => c.isOpen && decide (excludeUserId ≠ some c.userId))

/-- The `eta_updated` broadcast payload. -/
structure EtaUpdatedData where
  eventId : String
  participantId : String
  eta : ℚ
  distance : ℚ
  isMoving : Bool
  timestamp : ℚ
deriving DecidableEq, Repr

/-- Distance and ETA as the `location_update` branch computes them
(`routes.ts` lines 264-270): both stay `0` unless the event has truthy
(non-null, nonzero) target coordinates; with them, the distance is the
haversine to the event and the ETA comes from the gateway. -/
def pipelineDistanceEta (calcDist : ℚ → ℚ → ℚ → ℚ → ℚ) (gw : DirectionsResponse)
    (event : Event) (lat lng : ℚ) : ℚ × ℚ :=
  match event.locationLat, event.locationLng with
  | some eventLat, some eventLng =>
      if eventLat ≠ 0 ∧ eventLng ≠ 0 then
        (calcDist lat lng eventLat eventLng, calculateGoogleETA gw)
      else (0, 0)
  | _, _ => (0, 0)

/-- The `location_update` branch of `handleWebSocketMessage`
(`routes.ts` lines 248-308).  Returns the new storage and the list of
`(recipient userId, payload)` sends of the `eta_updated` broadcast (one
entry per recipient socket).  Parameters: `calcDist` the haversine,
`gw` the directions provider's response for this cycle, `now` the wall
clock, `freshId` the uuid a potential auto-join would draw. -/
def handleLocationUpdate (calcDist : ℚ → ℚ → ℚ → ℚ → ℚ) (gw : DirectionsResponse)
    (now : ℚ) (freshId : String) (st : Storage) (eventConnections : EventConnections)
    (userId eventId : String) (lat lng : ℚ) :
    Storage × List (String × EtaUpdatedData) :=
  match getEventWithParticipants st eventId userId with
  | none => (st, [])
  | some (event, currentParticipant) =>
      let distEta := pipelineDistanceEta calcDist gw event lat lng
      let distance := distEta.1
      let eta := distEta.2
      let isMoving := computeIsMoving calcDist now lat lng currentParticipant
      let upd := updateParticipantLocation freshId now st eventId userId lat lng
        isMoving (some eta) (some distance)
      match upd.1 with
      | none => (upd.2, [])
      | some _ =>
          let msg : EtaUpdatedData :=
            { eventId := eventId, participantId := userId, eta := eta
              distance := distance, isMoving := isMoving, timestamp := now }
          (upd.2, (broadcastToEvent eventConnections eventId (some userId)).map
            (fun c => (c.userId, msg)))

/-! ## List lemmas about the association-list `Map` model -/

theorem find?_append_none {α : Type} {l l' : List α} {q : α → Bool}
    (h : l.find? q = none) : (l ++ l').find? q = l'.find? q := by
  induction l with
  | nil => simp
  | cons a tl ih =>
      by_cases hqa : q a = true
      · rw [List.find?_cons_of_pos _ hqa] at h
        cases h
      · have hqa' : ¬ (q a : Prop) := by simpa using hqa
        rw [List.find?_cons_of_neg _ hqa'] at h
        rw [List.cons_append, List.find?_cons_of_neg _ hqa']
        exact ih h

theorem find?_map_replace {l : List (String × EventParticipant)}
    {q : String × EventParticipant → Bool} {k : String} {v v' : EventParticipant}
    (hq' : q (k, v') = true) (h : l.find? q = some (k, v)) :
    (l.map (fun kv => if kv.1 == k then (k, v') else kv)).find? q = some (k, v') := by
  induction l with
  | nil => simp at h
  | cons a tl ih =>
      by_cases hqa : q a = true
      · rw [List.find?_cons_of_pos _ hqa] at h
        injection h with h
        subst h
        have hv : (if (k, v).1 == k then ((k, v') : String × EventParticipant) else (k, v))
            = (k, v') := by simp
        rw [List.map_cons, hv, List.find?_cons_of_pos _ hq']
      · have hqa' : ¬ (q a : Prop) := by simpa using hqa
        rw [List.find?_cons_of_neg _ hqa'] at h
        rw [List.map_cons]
        by_cases hak : a.1 = k
        · have hv : (if a.1 == k then ((k, v') : String × EventParticipant) else a)
              = (k, v') := by simp [hak]
          rw [hv, List.find?_cons_of_pos _ hq']
        · have hv : (if a.1 == k then ((k, v') : String × EventParticipant) else a) = a := by
            simp [hak]
          rw [hv, List.find?_cons_of_neg _ hqa']
          exact ih h

theorem map_replace_eq_self {l : List (String × EventParticipant)}
    {k : String} {v' : EventParticipant}
    (h : l.all (fun kv => kv.1 != k) = true) :
    l.map (fun kv => if kv.1 == k then (k, v') else kv) = l := by
  induction l with
  | nil => rfl
  | cons a tl ih =>
      rw [List.all_cons, Bool.and_eq_true] at h
      have hak : ¬ a.1 = k := by
        have h1 := h.1
        simpa [bne_iff_ne] using h1
      have hv : (if a.1 == k then ((k, v') : String × EventParticipant) else a) = a := by
        simp [hak]
      rw [List.map_cons, hv, ih h.2]

theorem countP_zero_of_find?_none {α : Type} {l : List α} {q : α → Bool}
    (h : l.find? q = none) : l.countP q = 0 := by
  rw [List.countP_eq_zero]
  exact fun a ha => by simpa using List.find?_eq_none.mp h a ha

theorem find?_mapSet_self {l : List (String × EventParticipant)}
    {q : String × EventParticipant → Bool} {k : String} {v v' : EventParticipant}
    (hq' : q (k, v') = true) (h : l.find? q = some (k, v)) :
    (mapSet l k v').find? q = some (k, v') := by
  have hmem : (k, v) ∈ l := List.mem_of_find?_eq_some h
  have hany : l.any (fun kv => kv.1 == k) = true := by
    rw [List.any_eq_true]
    exact ⟨(k, v), hmem, by simp⟩
  rw [mapSet, if_pos hany]
  exact find?_map_replace hq' h

/-! ## Claim C5: fields persisted by `updateParticipantLocation` -/

/-- Helper: the effect of `updateParticipantLocation` when a row for
`(eventId, userId)` already exists: the found row is updated in place and
a subsequent lookup returns the updated row. -/
theorem updateParticipantLocation_found (freshId : String) (now : ℚ) (st : Storage)
    (e u : String) (lat lng : ℚ) (mv : Bool) (eta distance : Option ℚ)
    (k : String) (p : EventParticipant)
    (hfind : st.eventParticipants.find? (rowMatches e u) = some (k, p)) :
    (updateParticipantLocation freshId now st e u lat lng mv eta distance).1
      = some (applyLocationUpdate now p lat lng mv eta distance) ∧
    lookupParticipant
      (updateParticipantLocation freshId now st e u lat lng mv eta distance).2 e u
      = some (applyLocationUpdate now p lat lng mv eta distance) := by
  have hrow : rowMatches e u (k, p) = true := List.find?_some hfind
  have hrow' : rowMatches e u (k, applyLocationUpdate now p lat lng mv eta distance)
      = true := by
    simpa only [rowMatches, applyLocationUpdate] using hrow
  constructor
  · simp only [updateParticipantLocation, hfind]
  · simp only [updateParticipantLocation, hfind, lookupParticipant]
    rw [find?_mapSet_self hrow' hfind]
    rfl

/-- C5 (amended): on an existing participant row,
`updateParticipantLocation(eventId, userId, lat, lng, isMoving, eta, distance)`
with a nonnegative `eta` persists the new lat/lng, the new timestamp and
the given `isMoving`; `distanceToEvent` becomes the given distance only
when that distance is nonzero and otherwise keeps its prior value
(JS `distance || prior`); `estimatedArrival` becomes `now + eta` minutes
only when `eta > 0` and otherwise keeps its prior value; the fields not
listed (`id`, `eventId`, `userId`, `joinedAt`) are unchanged. -/
theorem c5_update_persists_fields (freshId : String) (now : ℚ) (st : Storage)
    (e u : String) (lat lng : ℚ) (mv : Bool) (eta distance : ℚ)
    (k : String) (p : EventParticipant)
    (hfind : st.eventParticipants.find? (rowMatches e u) = some (k, p))
    (heta : 0 ≤ eta) :
    ∃ updated,
      (updateParticipantLocation freshId now st e u lat lng mv (some eta) (some distance)).1
        = some updated ∧
      lookupParticipant
        (updateParticipantLocation freshId now st e u lat lng mv (some eta) (some distance)).2
        e u = some updated ∧
      updated.lastLat = some lat ∧
      updated.lastLng = some lng ∧
      updated.lastLocationAt = some now ∧
      updated.isMoving = mv ∧
      updated.distanceToEvent = (if distance ≠ 0 then some distance else p.distanceToEvent) ∧
      updated.estimatedArrival =
        (if 0 < eta then some (now + eta * 60 * 1000) else p.estimatedArrival) ∧
      updated.id = p.id ∧ updated.eventId = p.eventId ∧
      updated.userId = p.userId ∧ updated.joinedAt = p.joinedAt := by
  obtain ⟨h1, h2⟩ := updateParticipantLocation_found freshId now st e u lat lng mv
    (some eta) (some distance) k p hfind
  refine ⟨applyLocationUpdate now p lat lng mv (some eta) (some distance),
    h1, h2, rfl, rfl, rfl, rfl, ?_, ?_, rfl, rfl, rfl, rfl⟩
  · show (if truthyQ (some distance) then some distance else p.distanceToEvent) = _
    by_cases hdz : distance = 0 <;> simp [truthyQ, hdz]
  · show (if truthyQ (some eta) then some (now + ((some eta).getD 0) * 60 * 1000)
        else p.estimatedArrival) = _
    rcases lt_or_eq_of_le heta with h0 | h0
    · rw [if_pos (by simp [truthyQ, ne_of_gt h0]), if_pos h0, Option.getD_some]
    · rw [if_neg (by simp [truthyQ, ← h0]), if_neg (by simp [← h0])]

/-- A computable stand-in for the haversine `calculateDistance`, used to
instantiate the abstract distance parameter at concrete inputs.  Like the
haversine it vanishes between identical points (spec section 8:
`distanceKm(a,a) = 0`), is nonnegative and symmetric. -/
def demoDist (lat1 lon1 lat2 lon2 : ℚ) : ℚ :=
  (lat1 - lat2) * (lat1 - lat2) + (lon1 - lon2) * (lon1 - lon2)

/-- A stored participant row with a prior `distanceToEvent` of 5 km. -/
def c5Prior : EventParticipant :=
  { id := "k1", eventId := "e1", userId := "u1", lastLat := some 1, lastLng := some 1
    lastLocationAt := some 0, isMoving := false, estimatedArrival := some 99
    distanceToEvent := some 5, joinedAt := 0 }

def c5St : Storage :=
  { users := ["u1"], events := [], eventParticipants := [("k1", c5Prior)] }

/-- C5 counterexample: the claim says the persisted row always carries
the given `distanceToEvent`; but `distance || prior` keeps the prior
value when the given distance is `0`.  Updating the row whose stored
distance is 5 with `distance = 0` persists 5, not 0. -/
theorem c5_counterexample :
    ((updateParticipantLocation "f" 1000 c5St "e1" "u1" 2 3 false (some 4) (some 0)).1.map
      (fun r => r.distanceToEvent)) = some (some 5) ∧
    some (5 : ℚ) ≠ some (0 : ℚ) := by decide

theorem c5_update_persists_fields_witness :
    (c5St.eventParticipants.find? (rowMatches "e1" "u1") = some ("k1", c5Prior) ∧
     (0 : ℚ) ≤ 4) ∧
    (∃ updated,
      (updateParticipantLocation "f" 1000 c5St "e1" "u1" 2 3 true (some 4) (some 2)).1
        = some updated ∧
      lookupParticipant
        (updateParticipantLocation "f" 1000 c5St "e1" "u1" 2 3 true (some 4) (some 2)).2
        "e1" "u1" = some updated ∧
      updated.lastLat = some 2 ∧
      updated.lastLng = some 3 ∧
      updated.lastLocationAt = some 1000 ∧
      updated.isMoving = true ∧
      updated.distanceToEvent = (if (2 : ℚ) ≠ 0 then some 2 else c5Prior.distanceToEvent) ∧
      updated.estimatedArrival =
        (if (0 : ℚ) < 4 then some (1000 + 4 * 60 * 1000) else c5Prior.estimatedArrival) ∧
      updated.id = c5Prior.id ∧ updated.eventId = c5Prior.eventId ∧
      updated.userId = c5Prior.userId ∧ updated.joinedAt = c5Prior.joinedAt) :=
  ⟨⟨by decide, by norm_num⟩,
    c5_update_persists_fields "f" 1000 c5St "e1" "u1" 2 3 true 4 2 "k1" c5Prior
      (by decide) (by norm_num)⟩

/-! ## Claim C10: `updateParticipantLocation` auto-joins missing members -/

/-- Helper: the effect of `updateParticipantLocation` when no row exists
for `(eventId, userId)`: the auto-join inserts a fresh row which the
unrolled recursive call then updates; afterwards exactly one matching
row is stored. -/
theorem updateParticipantLocation_missing (freshId : String) (now : ℚ) (st : Storage)
    (e u : String) (lat lng : ℚ) (mv : Bool) (eta distance : Option ℚ)
    (hnone : st.eventParticipants.find? (rowMatches e u) = none)
    (hfresh : st.eventParticipants.all (fun kv => kv.1 != freshId) = true) :
    (updateParticipantLocation freshId now st e u lat lng mv eta distance).1
      = some (applyLocationUpdate now (freshParticipant freshId now e u) lat lng mv eta distance) ∧
    lookupParticipant
      (updateParticipantLocation freshId now st e u lat lng mv eta distance).2 e u
      = some (applyLocationUpdate now (freshParticipant freshId now e u) lat lng mv eta distance) ∧
    ((updateParticipantLocation freshId now st e u lat lng mv eta distance).2.eventParticipants.countP
      (rowMatches e u)) = 1 := by
  have hany0 : st.eventParticipants.any (fun kv => kv.1 == freshId) = false := by
    rw [List.any_eq_false]
    intro kv hkv
    have h1 := List.all_eq_true.mp hfresh kv hkv
    simpa using h1
  have hmatch0 : rowMatches e u (freshId, freshParticipant freshId now e u) = true := by
    simp [rowMatches, freshParticipant]
  have hjoin : (joinEvent freshId now st e u).2.eventParticipants
      = st.eventParticipants ++ [(freshId, freshParticipant freshId now e u)] := by
    simp only [joinEvent, hnone, mapSet, hany0, Bool.false_eq_true, if_false]
  have hfind1 : ((joinEvent freshId now st e u).2.eventParticipants).find? (rowMatches e u)
      = some (freshId, freshParticipant freshId now e u) := by
    rw [hjoin, find?_append_none hnone, List.find?_cons_of_pos _ hmatch0]
  have hmatch1 : rowMatches e u
      (freshId, applyLocationUpdate now (freshParticipant freshId now e u) lat lng mv eta distance)
      = true := by
    simpa [rowMatches, applyLocationUpdate] using hmatch0
  have hany1 : ((joinEvent freshId now st e u).2.eventParticipants).any
      (fun kv => kv.1 == freshId) = true := by
    rw [hjoin, List.any_append]
    simp
  have hmap : mapSet ((joinEvent freshId now st e u).2.eventParticipants) freshId
      (applyLocationUpdate now (freshParticipant freshId now e u) lat lng mv eta distance)
      = st.eventParticipants ++
        [(freshId, applyLocationUpdate now (freshParticipant freshId now e u) lat lng mv eta distance)] := by
    rw [mapSet, if_pos hany1, hjoin, List.map_append, map_replace_eq_self hfresh]
    simp
  have hres : updateParticipantLocation freshId now st e u lat lng mv eta distance
      = (some (applyLocationUpdate now (freshParticipant freshId now e u) lat lng mv eta distance),
         { (joinEvent freshId now st e u).2 with
           eventParticipants := st.eventParticipants ++
             [(freshId, applyLocationUpdate now (freshParticipant freshId now e u) lat lng mv eta distance)] }) := by
    rw [updateParticipantLocation, hnone]
    simp only [hfind1, hmap]
  refine ⟨?_, ?_, ?_⟩
  · rw [hres]
  · rw [hres, lookupParticipant]
    simp only
    rw [find?_append_none hnone, List.find?_cons_of_pos _ hmatch1]
    rfl
  · rw [hres]
    simp only
    rw [List.countP_append, countP_zero_of_find?_none hnone]
    simp [List.countP_cons, hmatch1]

/-- C10: when no Participant row exists for `(eventId, userId)`,
`updateParticipantLocation` first performs the idempotent join and then
applies the update, so it returns an updated row (never nothing) bound
to that event and user, the row is found by a subsequent lookup, and
afterwards exactly one row exists for the `(eventId, userId)` pair.
(`freshId` is the uuid `randomUUID` draws for the join; being fresh it
does not collide with a stored key.) -/
theorem c10_update_autojoins (freshId : String) (now : ℚ) (st : Storage)
    (e u : String) (lat lng : ℚ) (mv : Bool) (eta distance : Option ℚ)
    (hnone : st.eventParticipants.find? (rowMatches e u) = none)
    (hfresh : st.eventParticipants.all (fun kv => kv.1 != freshId) = true) :
    ∃ updated,
      (updateParticipantLocation freshId now st e u lat lng mv eta distance).1
        = some updated ∧
      lookupParticipant
        (updateParticipantLocation freshId now st e u lat lng mv eta distance).2
        e u = some updated ∧
      updated.lastLat = some lat ∧ updated.lastLng = some lng ∧
      updated.eventId = e ∧ updated.userId = u ∧
      ((updateParticipantLocation freshId now st e u lat lng mv eta distance).2.eventParticipants.countP
        (rowMatches e u)) = 1 := by
  obtain ⟨h1, h2, h3⟩ := updateParticipantLocation_missing freshId now st e u lat lng mv
    eta distance hnone hfresh
  exact ⟨applyLocationUpdate now (freshParticipant freshId now e u) lat lng mv eta distance,
    h1, h2, rfl, rfl, rfl, rfl, h3⟩

def c10St : Storage := { users := ["u2"], events := [], eventParticipants := [] }

theorem c10_update_autojoins_witness :
    (c10St.eventParticipants.find? (rowMatches "e2" "u2") = none ∧
     c10St.eventParticipants.all (fun kv => kv.1 != "f2") = true) ∧
    (∃ updated,
      (updateParticipantLocation "f2" 500 c10St "e2" "u2" 4 6 false (some 3) (some 1)).1
        = some updated ∧
      lookupParticipant
        (updateParticipantLocation "f2" 500 c10St "e2" "u2" 4 6 false (some 3) (some 1)).2
        "e2" "u2" = some updated ∧
      updated.lastLat = some 4 ∧ updated.lastLng = some 6 ∧
      updated.eventId = "e2" ∧ updated.userId = "u2" ∧
      ((updateParticipantLocation "f2" 500 c10St "e2" "u2" 4 6 false (some 3) (some 1)).2.eventParticipants.countP
        (rowMatches "e2" "u2")) = 1) :=
  ⟨⟨by decide, by decide⟩,
    c10_update_autojoins "f2" 500 c10St "e2" "u2" 4 6 false (some 3) (some 1)
      (by decide) (by decide)⟩

/-! ## Claims C2 and C9: movement detection -/

/-- C9: the movement-detection guard tests JS truthiness of the stored
coordinates, not their presence; a stored prior position whose latitude
or longitude equals 0 is treated like an absent prior position, so the
next `location_update` reports `isMoving = false` regardless of the
distance actually travelled — both in `computeIsMoving` itself and in
every `eta_updated` payload the pipeline broadcasts for that update. -/
theorem c9_zero_coordinate_suppresses_moving
    (calcDist : ℚ → ℚ → ℚ → ℚ → ℚ) (gw : DirectionsResponse) (now : ℚ)
    (freshId : String) (st : Storage) (conns : EventConnections)
    (u e : String) (lat lng : ℚ) (ev : Event) (cp : EventParticipant)
    (hEv : getEventWithParticipants st e u = some (ev, some cp))
    (h0 : cp.lastLat = some 0 ∨ cp.lastLng = some 0) :
    computeIsMoving calcDist now lat lng (some cp) = false ∧
    ∀ s ∈ (handleLocationUpdate calcDist gw now freshId st conns u e lat lng).2,
      s.2.isMoving = false := by
  have hm : computeIsMoving calcDist now lat lng (some cp) = false := by
    rcases h0 with h | h
    · rcases hl : cp.lastLng with _ | plo <;> simp [computeIsMoving, h, hl]
    · rcases hl : cp.lastLat with _ | pla <;> simp [computeIsMoving, h, hl]
  refine ⟨hm, ?_⟩
  intro s hs
  simp only [handleLocationUpdate, hEv] at hs
  rcases hcase : (updateParticipantLocation freshId now st e u lat lng
      (computeIsMoving calcDist now lat lng (some cp))
      (some (pipelineDistanceEta calcDist gw ev lat lng).2)
      (some (pipelineDistanceEta calcDist gw ev lat lng).1)).1 with _ | w
  · rw [hcase] at hs
    simp at hs
  · rw [hcase] at hs
    simp only [List.mem_map] at hs
    obtain ⟨c, hc, hcs⟩ := hs
    rw [← hcs]
    simpa using hm

def c9Cp : EventParticipant :=
  { id := "k1", eventId := "e1", userId := "u1", lastLat := some 0, lastLng := some 5
    lastLocationAt := some 0, isMoving := false, estimatedArrival := none
    distanceToEvent := none, joinedAt := 0 }

def c9Ev : Event := { id := "e1", creatorId := "cr", locationLat := none, locationLng := none }

def c9St : Storage :=
  { users := ["u1", "cr"], events := [c9Ev], eventParticipants := [("k1", c9Cp)] }

theorem c9_zero_coordinate_suppresses_moving_witness :
    (getEventWithParticipants c9St "e1" "u1" = some (c9Ev, some c9Cp) ∧
     (c9Cp.lastLat = some 0 ∨ c9Cp.lastLng = some 0)) ∧
    (computeIsMoving demoDist 5000 3 5 (some c9Cp) = false ∧
     ∀ s ∈ (handleLocationUpdate demoDist .networkError 5000 "f" c9St [] "u1" "e1" 3 5).2,
       s.2.isMoving = false) :=
  ⟨⟨by decide, Or.inl rfl⟩,
    c9_zero_coordinate_suppresses_moving demoDist .networkError 5000 "f" c9St [] "u1" "e1"
      3 5 c9Ev c9Cp (by decide) (Or.inl rfl)⟩

/-- C2 (amended): the pipeline's movement detection yields
`isMoving = true` iff the participant's stored prior position has both
coordinates present AND nonzero (JS truthiness — a prior position with
latitude or longitude exactly 0 counts as absent) AND the distance from
the prior to the current position strictly exceeds 0.1 km AND the
elapsed time since the prior report is strictly below 30 seconds (an
absent `lastLocationAt` counts as an elapsed time of 0); in particular,
on a participant's first-ever report (no stored row, or a row with null
position) `isMoving` is false. -/
theorem c2_is_moving_characterization (calcDist : ℚ → ℚ → ℚ → ℚ → ℚ) (now lat lng : ℚ) :
    (∀ cp : EventParticipant,
      (computeIsMoving calcDist now lat lng (some cp) = true ↔
        ∃ priorLat priorLng, cp.lastLat = some priorLat ∧ cp.lastLng = some priorLng ∧
          priorLat ≠ 0 ∧ priorLng ≠ 0 ∧
          calcDist lat lng priorLat priorLng > 1/10 ∧
          ∀ t, cp.lastLocationAt = some t → (now - t) / 1000 < 30)) ∧
    computeIsMoving calcDist now lat lng none = false := by
  refine ⟨?_, rfl⟩
  intro cp
  rcases hla : cp.lastLat with _ | pla
  · simp [computeIsMoving, hla]
  · rcases hlo : cp.lastLng with _ | plo
    · simp [computeIsMoving, hla, hlo]
    · by_cases hz : pla ≠ 0 ∧ plo ≠ 0
      · rcases ht : cp.lastLocationAt with _ | t
        · have hif : computeIsMoving calcDist now lat lng (some cp)
              = decide (calcDist lat lng pla plo > 1/10 ∧ (0 : ℚ) < 30) := by
            simp only [computeIsMoving, hla, hlo, ht]
            rw [if_pos hz]
          rw [hif, decide_eq_true_eq]
          constructor
          · rintro ⟨hd, -⟩
            exact ⟨pla, plo, rfl, rfl, hz.1, hz.2, hd,
              fun t' ht' => Option.noConfusion ht'⟩
          · rintro ⟨pla', plo', h1, h2, -, -, hd, -⟩
            injection h1 with h1
            injection h2 with h2
            subst h1
            subst h2
            exact ⟨hd, by norm_num⟩
        · have hif : computeIsMoving calcDist now lat lng (some cp)
              = decide (calcDist lat lng pla plo > 1/10 ∧ (now - t) / 1000 < 30) := by
            simp only [computeIsMoving, hla, hlo, ht]
            rw [if_pos hz]
          rw [hif, decide_eq_true_eq]
          constructor
          · rintro ⟨hd, htd⟩
            refine ⟨pla, plo, rfl, rfl, hz.1, hz.2, hd, fun t' ht' => ?_⟩
            injection ht' with hh
            rw [← hh]
            exact htd
          · rintro ⟨pla', plo', h1, h2, -, -, hd, htd⟩
            injection h1 with h1
            injection h2 with h2
            subst h1
            subst h2
            exact ⟨hd, htd t rfl⟩
      · have hif : computeIsMoving calcDist now lat lng (some cp) = false := by
          simp only [computeIsMoving, hla, hlo]
          rw [if_neg hz]
        rw [hif]
        simp only [Bool.false_eq_true, false_iff]
        rintro ⟨pla', plo', h1, h2, hz1, hz2, -, -⟩
        injection h1 with h1
        injection h2 with h2
        subst h1
        subst h2
        exact hz ⟨hz1, hz2⟩

/-- A stored row with a genuine prior position `(0, 5)` (on the equator)
and a recent prior report. -/
def c2Cp : EventParticipant :=
  { id := "k1", eventId := "e1", userId := "u1", lastLat := some 0, lastLng := some 5
    lastLocationAt := some 0, isMoving := false, estimatedArrival := none
    distanceToEvent := none, joinedAt := 0 }

/-- C2 counterexample: the participant has a prior recorded position
`(0, 5)`, the prior-to-current distance strictly exceeds 0.1 km and the
elapsed time is 5 s < 30 s, so the claim requires `isMoving = true`; the
code computes `false` because the truthiness guard discards the prior
position whose latitude is 0.  (The real haversine distance from `(0,5)`
to `(3,5)` is about 333 km, far above 0.1; `demoDist` likewise exceeds it.) -/
theorem c2_counterexample :
    c2Cp.lastLat = some 0 ∧ c2Cp.lastLng = some 5 ∧ c2Cp.lastLocationAt = some 0 ∧
    demoDist 3 5 0 5 > 1/10 ∧ ((5000 : ℚ) - 0) / 1000 < 30 ∧
    computeIsMoving demoDist 5000 3 5 (some c2Cp) = false := by
  refine ⟨rfl, rfl, rfl, by norm_num [demoDist], by norm_num, by decide⟩

/-! ## Claim C1: gateway failures do not block the location update -/

/-- Helper: whatever the update returns, the pipeline's resulting storage
is the one `updateParticipantLocation` produced. -/
theorem handleLocationUpdate_storage (calcDist : ℚ → ℚ → ℚ → ℚ → ℚ)
    (gw : DirectionsResponse) (now : ℚ) (freshId : String) (st : Storage)
    (conns : EventConnections) (u e : String) (lat lng : ℚ)
    (ev : Event) (cp : Option EventParticipant)
    (hEv : getEventWithParticipants st e u = some (ev, cp)) :
    (handleLocationUpdate calcDist gw now freshId st conns u e lat lng).1 =
      (updateParticipantLocation freshId now st e u lat lng
        (computeIsMoving calcDist now lat lng cp)
        (some (pipelineDistanceEta calcDist gw ev lat lng).2)
        (some (pipelineDistanceEta calcDist gw ev lat lng).1)).2 := by
  simp only [handleLocationUpdate, hEv]
  rcases hcase : (updateParticipantLocation freshId now st e u lat lng
      (computeIsMoving calcDist now lat lng cp)
      (some (pipelineDistanceEta calcDist gw ev lat lng).2)
      (some (pipelineDistanceEta calcDist gw ev lat lng).1)).1 with _ | w <;>
    simp [hcase]

/-- Helper: a failed gateway response yields ETA 0. -/
theorem calculateGoogleETA_failed {gw : DirectionsResponse}
    (hGw : gatewayFailed gw) : calculateGoogleETA gw = 0 := by
  rcases hGw with h | ⟨st, leg, h, hne⟩ | ⟨st, h⟩
  · rw [h]
    rfl
  · rw [h]
    simp only [calculateGoogleETA]
    rw [if_pos hne]
  · rw [h]
    simp only [calculateGoogleETA]
    by_cases hok : st = "OK"
    · rw [if_neg (by simp [hok])]
    · rw [if_pos hok]

/-- C1 (amended): a Directions Gateway failure (network error, provider
non-OK status, or missing route) does not throw out of the Location
Update Pipeline: the ETA is taken to be 0 (so `estimatedArrival` keeps
its prior value) and the participant row is still updated with the new
position; when the event has nonzero target coordinates, the row stores
the computed distance when that distance is nonzero, and keeps the prior
stored distance when the computed distance is 0 (the `distance || prior`
truthiness in the storage layer). -/
theorem c1_gateway_failure_nonblocking
    (calcDist : ℚ → ℚ → ℚ → ℚ → ℚ) (gw : DirectionsResponse)
    (now : ℚ) (freshId : String) (st : Storage) (conns : EventConnections)
    (u e : String) (lat lng : ℚ) (ev : Event) (cp : Option EventParticipant)
    (elat elng : ℚ)
    (hEv : getEventWithParticipants st e u = some (ev, cp))
    (hlat : ev.locationLat = some elat) (hlng : ev.locationLng = some elng)
    (hlat0 : elat ≠ 0) (hlng0 : elng ≠ 0)
    (hGw : gatewayFailed gw)
    (hfresh : st.eventParticipants.all (fun kv => kv.1 != freshId) = true) :
    calculateGoogleETA gw = 0 ∧
    ∃ row,
      lookupParticipant
        (handleLocationUpdate calcDist gw now freshId st conns u e lat lng).1 e u
        = some row ∧
      row.lastLat = some lat ∧ row.lastLng = some lng ∧ row.lastLocationAt = some now ∧
      row.distanceToEvent =
        (if calcDist lat lng elat elng ≠ 0 then some (calcDist lat lng elat elng)
         else (lookupParticipant st e u).bind (fun p => p.distanceToEvent)) ∧
      row.estimatedArrival =
        (lookupParticipant st e u).bind (fun p => p.estimatedArrival) := by
  have heta0 : calculateGoogleETA gw = 0 := calculateGoogleETA_failed hGw
  have hde : pipelineDistanceEta calcDist gw ev lat lng
      = (calcDist lat lng elat elng, 0) := by
    simp only [pipelineDistanceEta, hlat, hlng]
    rw [if_pos ⟨hlat0, hlng0⟩, heta0]
  have hst := handleLocationUpdate_storage calcDist gw now freshId st conns u e lat lng
    ev cp hEv
  rw [hde] at hst
  refine ⟨heta0, ?_⟩
  rcases hfind : st.eventParticipants.find? (rowMatches e u) with _ | kp
  · obtain ⟨-, h2, -⟩ := updateParticipantLocation_missing freshId now st e u lat lng
      (computeIsMoving calcDist now lat lng cp) (some 0) (some (calcDist lat lng elat elng))
      hfind hfresh
    refine ⟨_, by rw [hst]; exact h2, rfl, rfl, rfl, ?_, ?_⟩
    · show (if truthyQ (some (calcDist lat lng elat elng))
          then some (calcDist lat lng elat elng)
          else (freshParticipant freshId now e u).distanceToEvent) = _
      rw [lookupParticipant, hfind]
      by_cases hdz : calcDist lat lng elat elng = 0 <;>
        simp [truthyQ, hdz, freshParticipant]
    · show (if truthyQ (some (0 : ℚ))
          then some (now + ((some (0 : ℚ)).getD 0) * 60 * 1000)
          else (freshParticipant freshId now e u).estimatedArrival) = _
      rw [lookupParticipant, hfind]
      simp [truthyQ, freshParticipant]
  · obtain ⟨-, h2⟩ := updateParticipantLocation_found freshId now st e u lat lng
      (computeIsMoving calcDist now lat lng cp) (some 0) (some (calcDist lat lng elat elng))
      kp.1 kp.2 (by rw [hfind])
    refine ⟨_, by rw [hst]; exact h2, rfl, rfl, rfl, ?_, ?_⟩
    · show (if truthyQ (some (calcDist lat lng elat elng))
          then some (calcDist lat lng elat elng)
          else kp.2.distanceToEvent) = _
      rw [lookupParticipant, hfind]
      by_cases hdz : calcDist lat lng elat elng = 0 <;>
        simp [truthyQ, hdz]
    · show (if truthyQ (some (0 : ℚ))
          then some (now + ((some (0 : ℚ)).getD 0) * 60 * 1000)
          else kp.2.estimatedArrival) = _
      rw [lookupParticipant, hfind]
      simp [truthyQ]

/-- A participant standing exactly at the event location, with a prior
stored distance of 5 km. -/
def c1Prior : EventParticipant :=
  { id := "k1", eventId := "e1", userId := "u1", lastLat := some 7, lastLng := some 7
    lastLocationAt := some 0, isMoving := false, estimatedArrival := none
    distanceToEvent := some 5, joinedAt := 0 }

def c1Ev : Event :=
  { id := "e1", creatorId := "cr", locationLat := some 7, locationLng := some 7 }

def c1St : Storage :=
  { users := ["u1", "cr"], events := [c1Ev], eventParticipants := [("k1", c1Prior)] }

/-- C1 counterexample: the claim says that on a gateway failure the row
is still updated with the computed distance.  Here the event has target
coordinates `(7,7)` and the participant reports from exactly that point,
so the computed distance is 0 (any distance function vanishing on the
diagonal, as the haversine does); the stored row keeps the prior
distance 5 instead of the computed 0, because of `distance || prior`. -/
theorem c1_counterexample :
    gatewayFailed DirectionsResponse.networkError ∧
    demoDist 7 7 7 7 = 0 ∧
    (lookupParticipant
        (handleLocationUpdate demoDist .networkError 1000 "f" c1St [] "u1" "e1" 7 7).1
        "e1" "u1").map (fun r => r.distanceToEvent) = some (some 5) ∧
    some (5 : ℚ) ≠ some (0 : ℚ) := by
  have hd0 : demoDist 7 7 7 7 = 0 := by norm_num [demoDist]
  have hEv : getEventWithParticipants c1St "e1" "u1" = some (c1Ev, some c1Prior) := by
    decide
  have hde : pipelineDistanceEta demoDist DirectionsResponse.networkError c1Ev 7 7
      = (0, 0) := by
    show (if (7 : ℚ) ≠ 0 ∧ (7 : ℚ) ≠ 0
        then (demoDist 7 7 7 7, calculateGoogleETA DirectionsResponse.networkError)
        else (0, 0)) = (0, 0)
    rw [if_pos (by norm_num), hd0]
    rfl
  have hde1 : (pipelineDistanceEta demoDist DirectionsResponse.networkError c1Ev 7 7).1
      = 0 := by rw [hde]
  have hde2 : (pipelineDistanceEta demoDist DirectionsResponse.networkError c1Ev 7 7).2
      = 0 := by rw [hde]
  have hst := handleLocationUpdate_storage demoDist .networkError 1000 "f" c1St []
    "u1" "e1" 7 7 c1Ev (some c1Prior) hEv
  rw [hde1, hde2] at hst
  have hfind : c1St.eventParticipants.find? (rowMatches "e1" "u1")
      = some ("k1", c1Prior) := by decide
  obtain ⟨-, h2⟩ := updateParticipantLocation_found "f" 1000 c1St "e1" "u1" 7 7
    (computeIsMoving demoDist 1000 7 7 (some c1Prior)) (some 0) (some 0) "k1" c1Prior hfind
  refine ⟨Or.inl rfl, hd0, ?_, by norm_num⟩
  rw [hst, h2]
  simp [applyLocationUpdate, truthyQ, c1Prior]

theorem c1_gateway_failure_nonblocking_witness :
    (getEventWithParticipants c1St "e1" "u1" = some (c1Ev, some c1Prior) ∧
     c1Ev.locationLat = some 7 ∧ c1Ev.locationLng = some 7 ∧
     (7 : ℚ) ≠ 0 ∧ gatewayFailed DirectionsResponse.networkError ∧
     c1St.eventParticipants.all (fun kv => kv.1 != "f") = true) ∧
    (calculateGoogleETA DirectionsResponse.networkError = 0 ∧
     ∃ row,
      lookupParticipant
        (handleLocationUpdate demoDist .networkError 1000 "f" c1St [] "u1" "e1" 3 4).1
        "e1" "u1" = some row ∧
      row.lastLat = some 3 ∧ row.lastLng = some 4 ∧ row.lastLocationAt = some 1000 ∧
      row.distanceToEvent =
        (if demoDist 3 4 7 7 ≠ 0 then some (demoDist 3 4 7 7)
         else (lookupParticipant c1St "e1" "u1").bind (fun p => p.distanceToEvent)) ∧
      row.estimatedArrival =
        (lookupParticipant c1St "e1" "u1").bind (fun p => p.estimatedArrival)) :=
  ⟨⟨by decide, rfl, rfl, by norm_num, Or.inl rfl, by decide⟩,
    c1_gateway_failure_nonblocking demoDist .networkError 1000 "f" c1St [] "u1" "e1"
      3 4 c1Ev (some c1Prior) 7 7 (by decide) rfl rfl (by norm_num) (by norm_num)
      (Or.inl rfl) (by decide)⟩

/-! ## Claim C6: broadcast targets exactly the other open sockets -/

/-- Two participant rows for users A and B of event E, with no stored
location data yet. -/
def c6RowA : EventParticipant :=
  { id := "kA", eventId := "E", userId := "A", lastLat := none, lastLng := none
    lastLocationAt := none, isMoving := false, estimatedArrival := none
    distanceToEvent := none, joinedAt := 0 }

def c6RowB : EventParticipant :=
  { id := "kB", eventId := "E", userId := "B", lastLat := none, lastLng := none
    lastLocationAt := none, isMoving := false, estimatedArrival := none
    distanceToEvent := none, joinedAt := 0 }

def c6Ev : Event := { id := "E", creatorId := "cr", locationLat := none, locationLng := none }

def c6St : Storage :=
  { users := ["A", "B", "cr"], events := [c6Ev]
    eventParticipants := [("kA", c6RowA), ("kB", c6RowB)] }

def c6Conns : EventConnections :=
  [("E", [{ userId := "A", isOpen := true }, { userId := "B", isOpen := true }])]

/-- C6: `broadcastToEvent(eventId, message, excludeUserId)` reaches
exactly the open connections registered under `byEvent[eventId]` whose
`userId` differs from `excludeUserId`, and no others; and end-to-end,
with participants A and B both connected to event E, processing A's
`location_update` sends exactly one `eta_updated` message, to B, with
`participantId = A` — A receives none. -/
theorem c6_broadcast_exactness :
    (∀ (conns : EventConnections) (eventId : String) (excl : Option String) (c : Conn),
      c ∈ broadcastToEvent conns eventId excl ↔
        ∃ entry, conns.find? (fun kv => kv.1 == eventId) = some entry ∧
          c ∈ entry.2 ∧ c.isOpen = true ∧ excl ≠ some c.userId) ∧
    (handleLocationUpdate demoDist .networkError 1000 "f" c6St c6Conns "A" "E" 0 0).2
      = [("B", { eventId := "E", participantId := "A", eta := 0, distance := 0
                 isMoving := false, timestamp := 1000 })] := by
  constructor
  · intro conns eventId excl c
    rcases hf : conns.find? (fun kv => kv.1 == eventId) with _ | entry
    · simp [broadcastToEvent, hf]
    · simp only [broadcastToEvent, hf, List.mem_filter, Bool.and_eq_true,
        decide_eq_true_eq, Option.some.injEq]
      constructor
      · rintro ⟨hmem, hopen, hne⟩
        exact ⟨entry, rfl, hmem, hopen, hne⟩
      · rintro ⟨entry', hee, hmem, hopen, hne⟩
        subst hee
        exact ⟨hmem, hopen, hne⟩
  · decide

/-! ## Claim C8: inbound message validation (`wsMessageSchema` and the
`ws.on('message')` handler, `routes.ts` lines 158-192) -/

/-- JSON values, as `JSON.parse` produces them. -/
inductive Json
  | str (s : String)
  | num (q : ℚ)
  | bool (b : Bool)
  | null
  | arr (xs : List Json)
  | obj (fields : List (String × Json))

/-- Object field access (`undefined` when absent). -/
def jGet (fields : List (String × Json)) (k : String) : Option Json :=
  (fields.find? (fun kv => kv.1 == k)).map (fun kv => kv.2)

/-- Zod `z.string()` on a possibly-missing field. -/
def asString : Option Json → Option String
  | some (.str s) => some s
  | _ => none

/-- Zod `z.number()` on a possibly-missing field. -/
def asNumber : Option Json → Option ℚ
  | some (.num q) => some q
  | _ => none

/-- The parsed `WSMessage` union of `wsMessageSchema`. -/
inductive WSMessage
  | locationUpdate (eventId : String) (lat lng : ℚ) (timestamp : String)
  | participantJoined (eventId : String) (participant : Option Json)
  | participantLeft (eventId : String) (participantId : String)
  | eventDeleted (eventId : String)
  | etaUpdated (eventId participantId : String) (eta distance : ℚ) (isMoving : Bool)

/-- Schema `wsMessageSchema.parse`: a zod discriminated union on `type`.  The
`location_update` branch requires `data` to carry `eventId: string`,
`lat: number`, `lng: number` AND `timestamp: string` (all required;
extra keys are stripped, not rejected).  `none` models a thrown
`ZodError`. -/
def wsMessageSchemaParse (j : Json) : Option WSMessage :=
  match j with
  | .obj fields =>
      match jGet fields "data" with
      | some (.obj d) =>
          match asString (jGet fields "type") with
          | some "location_update" =>
              match asString (jGet d "eventId"), asNumber (jGet d "lat"),
                  asNumber (jGet d "lng"), asString (jGet d "timestamp") with
              | some e, some la, some ln, some ts => some (.locationUpdate e la ln ts)
              | _, _, _, _ => none
          | some "participant_joined" =>
              match asString (jGet d "eventId") with
              | some e => some (.participantJoined e (jGet d "participant"))
              | none => none
          | some "participant_left" =>
              match asString (jGet d "eventId"), asString (jGet d "participantId") with
              | some e, some p => some (.participantLeft e p)
              | _, _ => none
          | some "event_deleted" =>
              match asString (jGet d "eventId") with
              | some e => some (.eventDeleted e)
              | none => none
          | some "eta_updated" =>
              match asString (jGet d "eventId"), asString (jGet d "participantId"),
                  asNumber (jGet d "eta"), asNumber (jGet d "distance"),
                  jGet d "isMoving" with
              | some e, some p, some eta, some dist, some (.bool mv) =>
                  some (.etaUpdated e p eta dist mv)
              | _, _, _, _, _ => none
          | _ => none
      | _ => none
  | _ => none

/-- The server's reaction to one raw inbound frame. -/
inductive ServerAction
  | pongReply
  | ignored
  | errorReply
  | dispatch (m : WSMessage)

/-- Check `message.type === t`: the strict string comparison the handler does
before any schema validation. -/
def messageTypeIs (j : Json) (t : String) : Bool :=
  match j with
  | .obj fields =>
      match jGet fields "type" with
      | some (.str s) => s == t
      | _ => false
  | _ => false

/-- The `ws.on('message')` handler: `ping` gets a `pong` reply and
`pong` is ignored before any schema validation; everything else goes
through `wsMessageSchema.parse` — on success the message is dispatched
to `handleWebSocketMessage`, on a `ZodError` an error reply (not a
close) is sent. -/
def handleRawMessage (j : Json) : ServerAction :=
  if messageTypeIs j "ping" then .pongReply
  else if messageTypeIs j "pong" then .ignored
  else
    match wsMessageSchemaParse j with
    | some m => .dispatch m
    | none => .errorReply

/-- C8 counterexample: a `location_update` whose payload is exactly
`{eventId: string, lat: number, lng: number}` — the claimed shape — is
rejected by `wsMessageSchema` (the schema also requires a `timestamp`
string field) and answered with a validation-error reply instead of
being dispatched. -/
theorem c8_counterexample :
    handleRawMessage (.obj [("type", .str "location_update"),
      ("data", .obj [("eventId", .str "e1"), ("lat", .num 1), ("lng", .num 2)])])
      = .errorReply ∧
    ∀ m : WSMessage,
      handleRawMessage (.obj [("type", .str "location_update"),
        ("data", .obj [("eventId", .str "e1"), ("lat", .num 1), ("lng", .num 2)])])
        ≠ .dispatch m := by
  have he : handleRawMessage (.obj [("type", .str "location_update"),
      ("data", .obj [("eventId", .str "e1"), ("lat", .num 1), ("lng", .num 2)])])
      = .errorReply := rfl
  exact ⟨he, fun m h => ServerAction.noConfusion (he ▸ h)⟩

/-- C8 (amended): an inbound `location_update` whose payload has exactly
the shape `{eventId: string, lat: number, lng: number, timestamp: string}`
is accepted by the message validation and dispatched to the pipeline
handler; the three-field payload without `timestamp` fails validation
and gets an error reply (see the counterexample). -/
theorem c8_location_update_accepted (e ts : String) (la ln : ℚ) :
    handleRawMessage (.obj [("type", .str "location_update"),
      ("data", .obj [("eventId", .str e), ("lat", .num la), ("lng", .num ln),
        ("timestamp", .str ts)])])
      = .dispatch (.locationUpdate e la ln ts) := rfl

/-! ## Claim C7: ETA refresh scheduler throttling
(`client/src/pages/event/[id].tsx` lines 197-313) -/

/-- A roster participant as the scheduler reads it. -/
structure SchedParticipant where
  id : String
  userId : String
  lastLat : Option ℚ
  lastLng : Option ℚ
  isMoving : Bool
deriving DecidableEq, Repr

/-- A successful `getDirections` result (duration seconds, distance meters). -/
structure Directions where
  duration : ℚ
  distance : ℚ
deriving DecidableEq, Repr

/-- A roster entry after the ETA pass (`ParticipantWithETA`). -/
structure ParticipantWithETA where
  base : SchedParticipant
  googleETA : Option ℚ
  googleDistance : Option ℚ
  status : Status
  leaveBy : Option LeaveByResult
deriving DecidableEq, Repr

/-- The event data the scheduler reads: roster, location text, datetime. -/
structure SchedEvent where
  participants : List SchedParticipant
  location : String
  datetime : ℚ
deriving DecidableEq, Repr

/-- The page state the scheduler touches: `lastETACalculationRef`
(0 initially), `participantsWithETA`, `isCalculatingETAs`. -/
structure SchedulerState where
  lastETACalculation : ℚ
  participantsWithETA : List ParticipantWithETA
  isCalculatingETAs : Bool
deriving DecidableEq, Repr

def ETA_CALCULATION_INTERVAL : ℚ := 60000

/-- The loop body for one roster participant: a participant without a
truthy position is classified `far` with no gateway call; otherwise one
`getDirections` call is made (the second component counts gateway
calls), and on success status/ETA/leave-by are derived, while a null
result (or a throw) yields a `far` entry. -/
def processRosterParticipant (getDirections : ℚ → ℚ → String → Option Directions)
    (eventLocation : String) (eventDatetime now : ℚ) (p : SchedParticipant) :
    ParticipantWithETA × Nat :=
  match p.lastLat, p.lastLng with
  | some la, some ln =>
      if la ≠ 0 ∧ ln ≠ 0 then
        match getDirections la ln eventLocation with
        | some dirs =>
            let distanceKm := dirs.distance / 1000
            let status : Status :=
              if distanceKm < 1/10 then .arrived
              else if distanceKm < 1 then .close
              else if distanceKm < 10 then .moving
              else .far
            let etaMinutes := jsRound (dirs.duration / 60)
            ({ base := p, googleETA := some etaMinutes
               googleDistance := some dirs.distance, status := status
               leaveBy := some (calculateLeaveByTime eventDatetime etaMinutes now) }, 1)
        | none =>
            ({ base := p, googleETA := none, googleDistance := none, status := .far
               leaveBy := none }, 1)
      else
        ({ base := p, googleETA := none, googleDistance := none, status := .far
           leaveBy := none }, 0)
  | _, _ =>
      ({ base := p, googleETA := none, googleDistance := none, status := .far
         leaveBy := none }, 0)

/-- Function `calculateParticipantETAs(forceUpdate)`: skip entirely (state kept,
zero gateway calls) when not forced and less than 60 s have elapsed
since `lastETACalculationRef` — the time of the last completed
recomputation, updated only at the end of a full pass; also skip when
the event is missing, its location is falsy, or a pass is already
running.  Otherwise process the whole roster sequentially and record
the completion time in `lastETACalculationRef`.  Returns the new state
and the number of gateway calls performed. -/
def calculateParticipantETAs (getDirections : ℚ → ℚ → String → Option Directions)
    (now : ℚ) (forceUpdate : Bool) (event : Option SchedEvent) (st : SchedulerState) :
    SchedulerState × Nat :=
  let timeSinceLastCalculation := now - st.lastETACalculation
  if !forceUpdate && timeSinceLastCalculation < ETA_CALCULATION_INTERVAL then (st, 0)
  else
    match event with
    | none => (st, 0)
    | some ev =>
        if ev.location == "" || st.isCalculatingETAs then (st, 0)
        else
          let results := ev.participants.map
            (processRosterParticipant getDirections ev.location ev.datetime now)
          ({ lastETACalculation := now
             participantsWithETA := results.map (fun r => r.1)
             isCalculatingETAs := false },
           (results.map (fun r => r.2)).sum)

/-- Helper: an unforced invocation within 60 s of the last completed
recomputation is a no-op with zero gateway calls. -/
theorem calculateParticipantETAs_throttled
    (getDirections : ℚ → ℚ → String → Option Directions) (now : ℚ)
    (event : Option SchedEvent) (st : SchedulerState)
    (h : now - st.lastETACalculation < ETA_CALCULATION_INTERVAL) :
    calculateParticipantETAs getDirections now false event st = (st, 0) := by
  simp only [calculateParticipantETAs]
  rw [if_pos (by simp [h])]

/-- C7 (amended): the ETA Refresh Scheduler never runs a full-roster
recomputation less than 60 s after the previous *completed*
recomputation unless forced: an unforced invocation within 60 s of the
timestamp recorded by the last completed pass performs zero Directions
Gateway calls and leaves the participant ETA state unchanged.  (The
throttle is measured from the last completed run, not from the previous
invocation — see the counterexample: two unforced invocations under
60 s apart can still trigger gateway calls on the second.) -/
theorem c7_throttle (getDirections : ℚ → ℚ → String → Option Directions) (now : ℚ)
    (event : Option SchedEvent) (st : SchedulerState)
    (h : now - st.lastETACalculation < ETA_CALCULATION_INTERVAL) :
    calculateParticipantETAs getDirections now false event st = (st, 0) :=
  calculateParticipantETAs_throttled getDirections now event st h

def c7P : SchedParticipant :=
  { id := "p1", userId := "u1", lastLat := some 1, lastLng := some 1, isMoving := false }

def c7Ev : SchedEvent := { participants := [c7P], location := "X", datetime := 0 }

/-- The state after a pass completed at time 0. -/
def c7St : SchedulerState :=
  { lastETACalculation := 0, participantsWithETA := [], isCalculatingETAs := false }

def c7Gw : ℚ → ℚ → String → Option Directions := fun _ _ _ => none

/-- C7 counterexample: the scheduler is invoked unforced at t = 59 s and
again at t = 61 s — the two invocations are 2 s < 60 s apart.  The first
is throttled (zero calls, state unchanged), but the second performs one
gateway call, because the throttle measures from the last *completed*
recomputation (here t = 0), not from the previous invocation; the claim
says the second invocation performs zero gateway calls. -/
theorem c7_counterexample :
    (61000 : ℚ) - 59000 < 60000 ∧
    calculateParticipantETAs c7Gw 59000 false (some c7Ev) c7St = (c7St, 0) ∧
    (calculateParticipantETAs c7Gw 61000 false (some c7Ev) c7St).2 = 1 := by
  refine ⟨by norm_num, ?_, ?_⟩
  · exact calculateParticipantETAs_throttled c7Gw 59000 (some c7Ev) c7St
      (by norm_num [c7St, ETA_CALCULATION_INTERVAL])
  · simp only [calculateParticipantETAs]
    rw [if_neg (by norm_num [c7St, ETA_CALCULATION_INTERVAL])]
    norm_num [c7Ev, c7P, c7Gw, processRosterParticipant]
    rw [if_neg (by decide)]

theorem c7_throttle_witness :
    ((59000 : ℚ) - c7St.lastETACalculation < ETA_CALCULATION_INTERVAL) ∧
    calculateParticipantETAs c7Gw 59000 false (some c7Ev) c7St = (c7St, 0) :=
  ⟨by norm_num [c7St, ETA_CALCULATION_INTERVAL],
    c7_throttle c7Gw 59000 (some c7Ev) c7St
      (by norm_num [c7St, ETA_CALCULATION_INTERVAL])⟩

end BeThere
